import Mathlib

/-!
Verification development for the Samsung2 maker-note module of exiv2
(`src/samsungmn_int.cpp`): tag registries, descriptor lookup, and the
value formatters, shallowly embedded in Lean.
-/

namespace Exiv2Samsung

/-- Binary type tags of EXIF values, restricted to the kinds used by the
Samsung2 module (`undefined`, `unsignedShort`, `asciiString`,
`unsignedLong`, `signedRational`, `unsignedRational`, `signedLong`). -/
inductive TypeId where
  | undefined
  | unsignedShort
  | asciiString
  | unsignedLong
  | signedRational
  | unsignedRational
  | signedLong
  deriving DecidableEq, Repr

/-- Directory (IFD) identifiers used by the Samsung2 module. -/
inductive IfdId where
  | samsung2Id
  | samsungPwId
  deriving DecidableEq, Repr

/-- Section identifiers used by the Samsung2 module. -/
inductive SectionId where
  | makerTags
  deriving DecidableEq, Repr

/-- One entry of a lookup table: `TagDetails` of exiv2, an integer code
paired with a display label. -/
structure TagDetails where
  val : Int
  label : String
  deriving DecidableEq, Repr

/-- Identity of the formatter attached to a descriptor.  Each constructor
names one of the print functions referenced by the Samsung2 tables;
`printTag t` stands for the generic lookup-table formatter
`EXV_PRINT_TAG(t)` bound to table `t`. -/
inductive PrintFct where
  | printValue
  | printExifVersion
  | printCameraTemperature
  | printFocalLength35
  | printPwColor
  | printValueMinus4
  | print0x9204
  | print0x829a
  | print0x829d
  | printTag (t : List TagDetails)
  deriving DecidableEq, Repr

/-- Tag descriptor: the `TagInfo` record of exiv2 (tag id, short name,
title, description, owning directory, section, expected binary type,
expected element count with `-1` meaning variable, and the formatter). -/
structure TagInfo where
  tag : Nat
  name : String
  title : String
  desc : String
  ifdId : IfdId
  sectionId : SectionId
  typeId : TypeId
  count : Int
  printFct : PrintFct
  deriving DecidableEq, Repr

/-- Model of the external `Exiv2::Value` (a decoded field).  `typeId` is
the runtime type tag, `data` the integer readings of the components
(`toInt64` accessors), `raw` the default raw textual representation the
value prints when streamed unformatted (`os << value`), and `floatRepr`
the stream rendering of `toFloat()`; the last two are accessors of the
external abstraction, carried as data. -/
structure Value where
  typeId : TypeId
  data : List Int
  raw : String
  floatRepr : String

/-- Element count of a decoded value (`Value::count`). -/
def Value.count (v : Value) : Nat :=
  v.data.length

/-- Integer reading of component `n` (`Value::toInt64`). -/
def Value.toInt64 (v : Value) (n : Nat) : Int :=
  v.data.getD n 0

/-- Well-formedness of a decoded value: components of unsigned-integer
typed values lie in the unsigned range of their width, as the upstream
decoder guarantees. -/
def Value.wf (v : Value) : Prop :=
  (v.typeId = TypeId.unsignedShort → ∀ x ∈ v.data, 0 ≤ x ∧ x < 65536) ∧
  (v.typeId = TypeId.unsignedLong → ∀ x ∈ v.data, 0 ≤ x ∧ x < 4294967296)

/-- LensType lookup table, tag 0xa003 (`samsung2LensType`). -/
def samsung2LensType : List TagDetails :=
  [⟨0, "Built-in"⟩,
   ⟨1, "Samsung NX 30mm F2 Pancake"⟩,
   ⟨2, "Samsung NX 18-55mm F3.5-5.6 OIS"⟩,
   ⟨3, "Samsung NX 50-200mm F4-5.6 ED OIS"⟩,
   ⟨4, "Samsung NX 20-50mm F3.5-5.6 ED"⟩,
   ⟨5, "Samsung NX 20mm F2.8 Pancake"⟩,
   ⟨6, "Samsung NX 18-200mm F3.5-6.3 ED OIS"⟩,
   ⟨7, "Samsung NX 60mm F2.8 Macro ED OIS SSA"⟩,
   ⟨8, "Samsung NX 16mm F2.4 Pancake"⟩,
   ⟨9, "Samsung NX 85mm F1.4 ED SSA"⟩,
   ⟨10, "Samsung NX 45mm F1.8"⟩,
   ⟨11, "Samsung NX 45mm F1.8 2D/3D"⟩,
   ⟨12, "Samsung NX 12-24mm F4-5.6 ED"⟩,
   ⟨13, "Samsung NX 16-50mm F2-2.8 S ED OIS"⟩,
   ⟨14, "Samsung NX 10mm F3.5 Fisheye"⟩,
   ⟨15, "Samsung NX 16-50mm F3.5-5.6 Power Zoom ED OIS"⟩,
   ⟨20, "Samsung NX 50-150mm F2.8 S ED OIS"⟩,
   ⟨21, "Samsung NX 300mm F2.8 ED OIS"⟩]

/-- ColorSpace lookup table, tag 0xa011 (`samsung2ColorSpace`). -/
def samsung2ColorSpace : List TagDetails :=
  [⟨0, "sRGB"⟩, ⟨1, "Adobe RGB"⟩]

/-- SmartRange lookup table, tag 0xa012 (`samsung2SmartRange`). -/
def samsung2SmartRange : List TagDetails :=
  [⟨0, "Off"⟩, ⟨1, "On"⟩]

/-- PictureWizard Mode lookup table (`samsungPwMode`). -/
def samsungPwMode : List TagDetails :=
  [⟨0, "Standard"⟩, ⟨1, "Vivid"⟩, ⟨2, "Portrait"⟩, ⟨3, "Landscape"⟩,
   ⟨4, "Forest"⟩, ⟨5, "Retro"⟩, ⟨6, "Cool"⟩, ⟨7, "Calm"⟩,
   ⟨8, "Classic"⟩, ⟨9, "Custom1"⟩, ⟨10, "Custom2"⟩, ⟨11, "Custom3"⟩]

/-- Modelled from the spec: the raw-print formatter `printValue`
(defined in `tags_int.cpp`, outside `src/`): it streams the value's
default raw textual representation, `os << value`. -/
def printValue (os : String) (v : Value) : String :=
  os ++ v.raw

/-- Modelled from the spec: the Exif-version formatter
`printExifVersion` (defined outside `src/`).  The spec fixes only that
every formatter is a pure function of the value writing to the stream;
its text is abstracted as a rendering of the raw value. -/
def printExifVersion (os : String) (v : Value) : String :=
  os ++ v.raw

/-- Modelled from the spec: the exposure-bias formatter `print0x9204`
(defined outside `src/`); text abstracted as the raw rendering, only
purity is relied upon. -/
def print0x9204 (os : String) (v : Value) : String :=
  os ++ v.raw

/-- Modelled from the spec: the exposure-time formatter `print0x829a`
(defined outside `src/`); text abstracted as the raw rendering, only
purity is relied upon. -/
def print0x829a (os : String) (v : Value) : String :=
  os ++ v.raw

/-- Modelled from the spec: the F-number formatter `print0x829d`
(defined outside `src/`); text abstracted as the raw rendering, only
purity is relied upon. -/
def print0x829d (os : String) (v : Value) : String :=
  os ++ v.raw

/-- Camera temperature formatter `printCameraTemperature`: on a
count-1 `signedRational` value streams `toFloat()` followed by " C";
otherwise streams the raw value. -/
def printCameraTemperature (os : String) (v : Value) : String :=
  if v.count ≠ 1 ∨ v.typeId ≠ TypeId.signedRational then
    os ++ v.raw
  else
    os ++ v.floatRepr ++ " C"

/-- The 35mm focal length formatter `printFocalLength35`: on a count-1
`unsignedLong` value, reading 0 prints "Unknown", otherwise the reading
divided by 10 with exactly one decimal place and the suffix " mm"
(the source's floating `{:.1f}` rendering of `length / 10.0`, exact for
the 32-bit unsigned readings this branch receives, is embedded as
fixed-point decimal arithmetic); otherwise streams the raw value. -/
def printFocalLength35 (os : String) (v : Value) : String :=
  if v.count ≠ 1 ∨ v.typeId ≠ TypeId.unsignedLong then
    os ++ v.raw
  else
    if v.toInt64 0 = 0 then
      os ++ "Unknown"
    else
      os ++ toString (v.toInt64 0 / 10) ++ "." ++ toString (v.toInt64 0 % 10) ++ " mm"

/-- PictureWizard color formatter `printPwColor`: on a count-1
`unsignedShort` value, reading 65535 prints "Neutral", otherwise the
raw integer; otherwise streams the raw value. -/
def printPwColor (os : String) (v : Value) : String :=
  if v.count ≠ 1 ∨ v.typeId ≠ TypeId.unsignedShort then
    os ++ v.raw
  else
    if v.toInt64 0 = 65535 then
      os ++ "Neutral"
    else
      os ++ toString (v.toInt64 0)

/-- Biased scalar formatter `printValueMinus4`: on a count-1
`unsignedShort` value streams `toInt64(0) - 4` in signed integer
arithmetic; otherwise streams the raw value. -/
def printValueMinus4 (os : String) (v : Value) : String :=
  if v.count ≠ 1 ∨ v.typeId ≠ TypeId.unsignedShort then
    os ++ v.raw
  else
    os ++ toString (v.toInt64 0 - 4)

/-- Modelled from the spec: the generic lookup-table formatter
(`EXV_PRINT_TAG` / `printTag`, defined in `tags_int.hpp` outside
`src/`): on a count-1 value of the expected enumerated-integer type
(`unsignedShort` for every table of this module) it searches the table
for the integer reading, emitting the label on a match and the raw
integer otherwise; on a count or type mismatch it emits the value's
default raw representation. -/
def printTagList (t : List TagDetails) (os : String) (v : Value) : String :=
  if v.count = 1 ∧ v.typeId = TypeId.unsignedShort then
    match t.find? (fun td => td.val == v.toInt64 0) with
    | some td => os ++ td.label
    | none => os ++ toString (v.toInt64 0)
  else
    os ++ v.raw

/-- Dispatch of a descriptor's formatter reference to its
implementation (the call through `TagInfo::printFct_`). -/
def applyFct : PrintFct → String → Value → String
  | PrintFct.printValue, os, v => printValue os v
  | PrintFct.printExifVersion, os, v => printExifVersion os v
  | PrintFct.printCameraTemperature, os, v => printCameraTemperature os v
  | PrintFct.printFocalLength35, os, v => printFocalLength35 os v
  | PrintFct.printPwColor, os, v => printPwColor os v
  | PrintFct.printValueMinus4, os, v => printValueMinus4 os v
  | PrintFct.print0x9204, os, v => print0x9204 os v
  | PrintFct.print0x829a, os, v => print0x829a os v
  | PrintFct.print0x829d, os, v => print0x829d os v
  | PrintFct.printTag t, os, v => printTagList t os v

/-- End-of-list sentinel descriptor of the Samsung2 table. -/
def sentinelSamsung2 : TagInfo :=
  ⟨0xffff, "(UnknownSamsung2MakerNoteTag)", "(UnknownSamsung2MakerNoteTag)",
   "Unknown Samsung2MakerNote tag", IfdId.samsung2Id, SectionId.makerTags,
   TypeId.undefined, -1, PrintFct.printValue⟩

/-- Samsung MakerNote tag info table (`Samsung2MakerNote::tagInfo_`). -/
def tagInfo_ : List TagInfo :=
  [⟨0x0001, "Version", "Version", "Makernote version", IfdId.samsung2Id,
    SectionId.makerTags, TypeId.undefined, -1, PrintFct.printExifVersion⟩,
   ⟨0x0021, "PictureWizard", "Picture Wizard", "Picture wizard composite tag",
    IfdId.samsung2Id, SectionId.makerTags, TypeId.unsignedShort, -1, PrintFct.printValue⟩,
   ⟨0x0030, "LocalLocationName", "Local Location Name", "Local location name",
    IfdId.samsung2Id, SectionId.makerTags, TypeId.asciiString, -1, PrintFct.printValue⟩,
   ⟨0x0031, "LocationName", "Location Name", "Location name", IfdId.samsung2Id,
    SectionId.makerTags, TypeId.asciiString, -1, PrintFct.printValue⟩,
   ⟨0x0035, "Preview", "Pointer to a preview image",
    "Offset to an IFD containing a preview image", IfdId.samsung2Id,
    SectionId.makerTags, TypeId.unsignedLong, -1, PrintFct.printValue⟩,
   ⟨0x0043, "CameraTemperature", "Camera Temperature", "Camera temperature",
    IfdId.samsung2Id, SectionId.makerTags, TypeId.signedRational, -1,
    PrintFct.printCameraTemperature⟩,
   ⟨0xa001, "FirmwareName", "Firmware Name", "Firmware name", IfdId.samsung2Id,
    SectionId.makerTags, TypeId.asciiString, -1, PrintFct.printValue⟩,
   ⟨0xa003, "LensType", "Lens Type", "Lens type", IfdId.samsung2Id,
    SectionId.makerTags, TypeId.unsignedShort, -1, PrintFct.printTag samsung2LensType⟩,
   ⟨0xa004, "LensFirmware", "Lens Firmware", "Lens firmware", IfdId.samsung2Id,
    SectionId.makerTags, TypeId.asciiString, -1, PrintFct.printValue⟩,
   ⟨0xa010, "SensorAreas", "Sensor Areas", "Sensor areas", IfdId.samsung2Id,
    SectionId.makerTags, TypeId.unsignedLong, -1, PrintFct.printValue⟩,
   ⟨0xa011, "ColorSpace", "Color Space", "Color space", IfdId.samsung2Id,
    SectionId.makerTags, TypeId.unsignedShort, -1, PrintFct.printTag samsung2ColorSpace⟩,
   ⟨0xa012, "SmartRange", "Smart Range", "Smart range", IfdId.samsung2Id,
    SectionId.makerTags, TypeId.unsignedShort, -1, PrintFct.printTag samsung2SmartRange⟩,
   ⟨0xa013, "ExposureBiasValue", "Exposure Bias Value", "Exposure bias value",
    IfdId.samsung2Id, SectionId.makerTags, TypeId.signedRational, -1, PrintFct.print0x9204⟩,
   ⟨0xa014, "ISO", "ISO", "ISO", IfdId.samsung2Id, SectionId.makerTags,
    TypeId.unsignedLong, -1, PrintFct.printValue⟩,
   ⟨0xa018, "ExposureTime", "Exposure Time", "Exposure time", IfdId.samsung2Id,
    SectionId.makerTags, TypeId.unsignedRational, -1, PrintFct.print0x829a⟩,
   ⟨0xa019, "FNumber", "FNumber", "The F number.", IfdId.samsung2Id,
    SectionId.makerTags, TypeId.unsignedRational, -1, PrintFct.print0x829d⟩,
   ⟨0xa01a, "FocalLengthIn35mmFormat", "Focal Length In 35mm Format",
    "Focal length in 35mm format", IfdId.samsung2Id, SectionId.makerTags,
    TypeId.unsignedLong, -1, PrintFct.printFocalLength35⟩,
   ⟨0xa020, "EncryptionKey", "Encryption Key", "Encryption key", IfdId.samsung2Id,
    SectionId.makerTags, TypeId.unsignedLong, -1, PrintFct.printValue⟩,
   ⟨0xa021, "WB_RGGBLevelsUncorrected", "WB RGGB Levels Uncorrected",
    "WB RGGB levels not corrected for WB_RGGBLevelsBlack", IfdId.samsung2Id,
    SectionId.makerTags, TypeId.unsignedLong, -1, PrintFct.printValue⟩,
   ⟨0xa022, "WB_RGGBLevelsAuto", "WB RGGB Levels Auto", "WB RGGB levels auto",
    IfdId.samsung2Id, SectionId.makerTags, TypeId.unsignedLong, -1, PrintFct.printValue⟩,
   ⟨0xa023, "WB_RGGBLevelsIlluminator1", "WB RGGB Levels Illuminator1",
    "WB RGGB levels illuminator1", IfdId.samsung2Id, SectionId.makerTags,
    TypeId.unsignedLong, -1, PrintFct.printValue⟩,
   ⟨0xa024, "WB_RGGBLevelsIlluminator2", "WB RGGB Levels Illuminator2",
    "WB RGGB levels illuminator2", IfdId.samsung2Id, SectionId.makerTags,
    TypeId.unsignedLong, -1, PrintFct.printValue⟩,
   ⟨0xa028, "WB_RGGBLevelsBlack", "WB RGGB Levels Black", "WB RGGB levels black",
    IfdId.samsung2Id, SectionId.makerTags, TypeId.signedLong, -1, PrintFct.printValue⟩,
   ⟨0xa030, "ColorMatrix", "Color Matrix", "Color matrix", IfdId.samsung2Id,
    SectionId.makerTags, TypeId.signedLong, -1, PrintFct.printValue⟩,
   ⟨0xa031, "ColorMatrixSRGB", "Color Matrix sRGB", "Color matrix sRGB",
    IfdId.samsung2Id, SectionId.makerTags, TypeId.signedLong, -1, PrintFct.printValue⟩,
   ⟨0xa032, "ColorMatrixAdobeRGB", "Color Matrix Adobe RGB", "Color matrix Adobe RGB",
    IfdId.samsung2Id, SectionId.makerTags, TypeId.signedLong, -1, PrintFct.printValue⟩,
   ⟨0xa040, "ToneCurve1", "Tone Curve 1", "Tone curve 1", IfdId.samsung2Id,
    SectionId.makerTags, TypeId.unsignedLong, -1, PrintFct.printValue⟩,
   ⟨0xa041, "ToneCurve2", "Tone Curve 2", "Tone curve 2", IfdId.samsung2Id,
    SectionId.makerTags, TypeId.unsignedLong, -1, PrintFct.printValue⟩,
   ⟨0xa042, "ToneCurve3", "Tone Curve 3", "Tone curve 3", IfdId.samsung2Id,
    SectionId.makerTags, TypeId.unsignedLong, -1, PrintFct.printValue⟩,
   ⟨0xa043, "ToneCurve4", "Tone Curve 4", "Tone curve 4", IfdId.samsung2Id,
    SectionId.makerTags, TypeId.unsignedLong, -1, PrintFct.printValue⟩,
   sentinelSamsung2]

/-- List accessor `Samsung2MakerNote::tagList`. -/
def tagList : List TagInfo :=
  tagInfo_

/-- End-of-list sentinel descriptor of the PictureWizard table. -/
def sentinelSamsungPw : TagInfo :=
  ⟨0xffff, "(UnknownSamsungPictureWizardTag)", "(UnknownSamsungPictureWizardTag)",
   "Unknown SamsungPictureWizard tag", IfdId.samsungPwId, SectionId.makerTags,
   TypeId.unsignedShort, 1, PrintFct.printValue⟩

/-- Samsung PictureWizard tag info table (`Samsung2MakerNote::tagInfoPw_`). -/
def tagInfoPw_ : List TagInfo :=
  [⟨0x0000, "Mode", "Mode", "Mode", IfdId.samsungPwId, SectionId.makerTags,
    TypeId.unsignedShort, 1, PrintFct.printTag samsungPwMode⟩,
   ⟨0x0001, "Color", "Color", "Color", IfdId.samsungPwId, SectionId.makerTags,
    TypeId.unsignedShort, 1, PrintFct.printPwColor⟩,
   ⟨0x0002, "Saturation", "Saturation", "Saturation", IfdId.samsungPwId,
    SectionId.makerTags, TypeId.unsignedShort, 1, PrintFct.printValueMinus4⟩,
   ⟨0x0003, "Sharpness", "Sharpness", "Sharpness", IfdId.samsungPwId,
    SectionId.makerTags, TypeId.unsignedShort, 1, PrintFct.printValueMinus4⟩,
   ⟨0x0004, "Contrast", "Contrast", "Contrast", IfdId.samsungPwId,
    SectionId.makerTags, TypeId.unsignedShort, 1, PrintFct.printValueMinus4⟩,
   sentinelSamsungPw]

/-- List accessor `Samsung2MakerNote::tagListPw`. -/
def tagListPw : List TagInfo :=
  tagInfoPw_

/-- Modelled from the spec: directory dispatch `registry_for`
(the maker-note registry, outside `src/`) mapping the two supported
directory ids to their registries. -/
def registryFor : IfdId → List TagInfo
  | IfdId.samsung2Id => tagList
  | IfdId.samsungPwId => tagListPw

/-- Modelled from the spec: descriptor lookup `resolve(directory, id)`
(the `tagInfo` scan of `tags_int.cpp`, outside `src/`): scan the
descriptor sequence linearly until a matching id or the sentinel id
0xffff is reached; absence of a match resolves to the sentinel. -/
def resolve : List TagInfo → Nat → Option TagInfo
  | [], _ => none
  | ti :: rest, id =>
      if ti.tag = id ∨ ti.tag = 0xffff then some ti else resolve rest id

theorem resolve_of_not_mem (table : List TagInfo) (id : Nat)
    (h : id ∉ table.map TagInfo.tag) :
    resolve table id = table.find? (fun ti => ti.tag == 0xffff) := by
  induction table with
  | nil => rfl
  | cons ti rest ih =>
    simp only [List.map_cons, List.mem_cons, not_or] at h
    obtain ⟨hne, hrest⟩ := h
    by_cases hs : ti.tag = 0xffff
    · simp [resolve, List.find?, hs]
    · have htine : ti.tag ≠ id := fun he => hne he.symm
      have hb : (ti.tag == 0xffff) = false := by simpa using hs
      simp [resolve, List.find?, hs, htine, hb, ih hrest]

theorem resolve_isSome_of_sentinel (table : List TagInfo) (id : Nat)
    (h : 0xffff ∈ table.map TagInfo.tag) : (resolve table id).isSome := by
  induction table with
  | nil => simp at h
  | cons ti rest ih =>
    by_cases hc : ti.tag = id ∨ ti.tag = 0xffff
    · simp [resolve, hc]
    · have hmem : 0xffff ∈ rest.map TagInfo.tag := by
        simp only [List.map_cons, List.mem_cons] at h
        rcases h with h | h
        · exact absurd (Or.inr h.symm) hc
        · exact h
      simp [resolve, hc, ih hmem]

theorem TagDetails.eq_of_val_eq {t : List TagDetails}
    (h : t.Pairwise (fun a b => a.val ≠ b.val)) :
    ∀ a ∈ t, ∀ b ∈ t, a.val = b.val → a = b := by
  induction t with
  | nil =>
    intro a ha
    simp at ha
  | cons x rest ih =>
    intro a ha b hb hv
    obtain ⟨hx, hpw⟩ := List.pairwise_cons.mp h
    rcases List.mem_cons.mp ha with rfl | ha' <;> rcases List.mem_cons.mp hb with rfl | hb'
    · rfl
    · exact absurd hv (hx b hb')
    · exact absurd hv.symm (hx a ha')
    · exact ih hpw a ha' b hb' hv

theorem find?_val_eq {t : List TagDetails}
    (h : t.Pairwise (fun a b => a.val ≠ b.val))
    {td : TagDetails} (hmem : td ∈ t) {r : Int} (hval : td.val = r) :
    t.find? (fun x => x.val == r) = some td := by
  cases hf : t.find? (fun x => x.val == r) with
  | none =>
    have hall := List.find?_eq_none.mp hf td hmem
    simp [hval] at hall
  | some x =>
    have hx : x.val = r := by
      have := List.find?_some hf
      simpa using this
    have hxm : x ∈ t := List.mem_of_find?_eq_some hf
    have hxtd : x = td := TagDetails.eq_of_val_eq h x hxm td hmem (by rw [hx, hval])
    rw [hxtd]

theorem str_empty_append (s : String) : "" ++ s = s :=
  String.empty_append s

theorem applyFct_emit (fct : PrintFct) (v : Value) (os : String) :
    applyFct fct os v = os ++ applyFct fct "" v := by
  cases fct <;>
    simp only [applyFct, printValue, printExifVersion, print0x9204, print0x829a,
      print0x829d, printCameraTemperature, printFocalLength35, printPwColor,
      printValueMinus4, printTagList] <;>
    (repeat' split) <;>
    simp [String.empty_append, String.append_assoc]

/-- C1: for every tag id absent from a directory's descriptor table,
`resolve` returns the sentinel descriptor with id 0xffff; lookup never
fails; and each of the two tables contains exactly one sentinel entry. -/
theorem resolve_unknown_tag_sentinel :
    (∀ id : Nat, id ∉ tagInfo_.map TagInfo.tag →
       resolve tagInfo_ id = some sentinelSamsung2) ∧
    (∀ id : Nat, id ∉ tagInfoPw_.map TagInfo.tag →
       resolve tagInfoPw_ id = some sentinelSamsungPw) ∧
    sentinelSamsung2.tag = 0xffff ∧ sentinelSamsungPw.tag = 0xffff ∧
    (∀ id : Nat, (resolve tagInfo_ id).isSome ∧ (resolve tagInfoPw_ id).isSome) ∧
    (tagInfo_.filter (fun ti => ti.tag == 0xffff)).length = 1 ∧
    (tagInfoPw_.filter (fun ti => ti.tag == 0xffff)).length = 1 := by
  refine ⟨fun id h => ?_, fun id h => ?_, rfl, rfl, fun id => ⟨?_, ?_⟩, by decide, by decide⟩
  · rw [resolve_of_not_mem _ _ h]
    rfl
  · rw [resolve_of_not_mem _ _ h]
    rfl
  · exact resolve_isSome_of_sentinel _ _ (by decide)
  · exact resolve_isSome_of_sentinel _ _ (by decide)

/-- Witness for C1: the concrete absent id 0x1234 resolves to the
sentinel in both tables. -/
theorem resolve_unknown_tag_sentinel_witness :
    resolve tagInfo_ 0x1234 = some sentinelSamsung2 ∧
    resolve tagInfoPw_ 0x1234 = some sentinelSamsungPw :=
  ⟨resolve_unknown_tag_sentinel.1 0x1234 (by decide),
   resolve_unknown_tag_sentinel.2.1 0x1234 (by decide)⟩

/-- C2: every non-sentinel descriptor of each registry resolves, via its
directory id and tag id, to exactly that descriptor (all fields,
formatter identity included). -/
theorem resolve_known_tag_exact :
    ∀ d : IfdId, ∀ ti ∈ registryFor d, ti.tag ≠ 0xffff →
      resolve (registryFor d) ti.tag = some ti := by
  intro d
  cases d
  · decide
  · decide

/-- Witness for C2: the Saturation descriptor of the PictureWizard
directory resolves to itself. -/
theorem resolve_known_tag_exact_witness :
    resolve (registryFor IfdId.samsungPwId) 0x0002 =
      some ⟨0x0002, "Saturation", "Saturation", "Saturation", IfdId.samsungPwId,
            SectionId.makerTags, TypeId.unsignedShort, 1, PrintFct.printValueMinus4⟩ :=
  resolve_known_tag_exact IfdId.samsungPwId
    ⟨0x0002, "Saturation", "Saturation", "Saturation", IfdId.samsungPwId,
     SectionId.makerTags, TypeId.unsignedShort, 1, PrintFct.printValueMinus4⟩
    (by decide) (by decide)

/-- Counterexample to C3: an unmatched id in the PictureWizard table
resolves to its sentinel, whose expected type is `unsignedShort`, not
`undefined` as the claim states for both tables. -/
theorem pw_sentinel_type_counterexample :
    resolve tagInfoPw_ 0x0123 = some sentinelSamsungPw ∧
    sentinelSamsungPw.typeId = TypeId.unsignedShort ∧
    sentinelSamsungPw.typeId ≠ TypeId.undefined := by
  exact ⟨by decide, rfl, by decide⟩

/-- C3 (amended): the entry returned for an unmatched tag id always has
the raw-print formatter `printValue`; its expected type is `undefined`
in the top-level Samsung2 table and `unsignedShort` in the
PictureWizard table. -/
theorem sentinel_descriptor_shape :
    (∀ id : Nat, id ∉ tagInfo_.map TagInfo.tag →
       ∃ s, resolve tagInfo_ id = some s ∧ s.typeId = TypeId.undefined ∧
         s.printFct = PrintFct.printValue) ∧
    (∀ id : Nat, id ∉ tagInfoPw_.map TagInfo.tag →
       ∃ s, resolve tagInfoPw_ id = some s ∧ s.typeId = TypeId.unsignedShort ∧
         s.printFct = PrintFct.printValue) := by
  constructor
  · intro id h
    exact ⟨sentinelSamsung2, by rw [resolve_of_not_mem _ _ h]; rfl, rfl, rfl⟩
  · intro id h
    exact ⟨sentinelSamsungPw, by rw [resolve_of_not_mem _ _ h]; rfl, rfl, rfl⟩

/-- Witness for the amended C3 at the concrete absent id 0x0123. -/
theorem sentinel_descriptor_shape_witness :
    ∃ s, resolve tagInfo_ 0x0123 = some s ∧ s.typeId = TypeId.undefined ∧
      s.printFct = PrintFct.printValue :=
  sentinel_descriptor_shape.1 0x0123 (by decide)

/-- C4: on a well-formed count-1 `unsignedLong` value, the 35mm
focal-length formatter prints "Unknown" for reading 0 and otherwise the
reading divided by 10 with exactly one decimal place and suffix
" mm". -/
theorem printFocalLength35_spec (v : Value) (hwf : v.wf)
    (ht : v.typeId = TypeId.unsignedLong) (hc : v.count = 1) :
    ∀ os : String,
      (v.toInt64 0 = 0 → printFocalLength35 os v = os ++ "Unknown") ∧
      (v.toInt64 0 ≠ 0 →
         printFocalLength35 os v =
           os ++ toString (v.toInt64 0 / 10) ++ "." ++ toString (v.toInt64 0 % 10) ++ " mm") := by
  intro os
  constructor <;> intro h0 <;> simp [printFocalLength35, ht, hc, h0]

/-- Witness for C4: reading 550 prints "55.0 mm" and reading 0 prints
"Unknown". -/
theorem printFocalLength35_spec_witness :
    printFocalLength35 "" ⟨TypeId.unsignedLong, [550], "550", ""⟩ = "55.0 mm" ∧
    printFocalLength35 "" ⟨TypeId.unsignedLong, [0], "0", ""⟩ = "Unknown" := by
  constructor
  · have h := (printFocalLength35_spec ⟨TypeId.unsignedLong, [550], "550", ""⟩
      (by constructor <;> intro hty <;> simp_all) rfl rfl "").2 (by decide)
    rw [h]
    decide
  · have h := (printFocalLength35_spec ⟨TypeId.unsignedLong, [0], "0", ""⟩
      (by constructor <;> intro hty <;> simp_all) rfl rfl "").1 (by decide)
    rw [h]
    decide

/-- C5: on a count-1 `unsignedShort` value, the PictureWizard color
formatter prints "Neutral" for reading 65535 and otherwise the raw
integer unchanged. -/
theorem printPwColor_spec (v : Value)
    (ht : v.typeId = TypeId.unsignedShort) (hc : v.count = 1) :
    ∀ os : String,
      (v.toInt64 0 = 65535 → printPwColor os v = os ++ "Neutral") ∧
      (v.toInt64 0 ≠ 65535 → printPwColor os v = os ++ toString (v.toInt64 0)) := by
  intro os
  constructor <;> intro h0 <;> simp [printPwColor, ht, hc, h0]

/-- Witness for C5: reading 65535 prints "Neutral" and reading 120
prints "120". -/
theorem printPwColor_spec_witness :
    printPwColor "" ⟨TypeId.unsignedShort, [65535], "65535", ""⟩ = "Neutral" ∧
    printPwColor "" ⟨TypeId.unsignedShort, [120], "120", ""⟩ = "120" := by
  constructor
  · have h := (printPwColor_spec ⟨TypeId.unsignedShort, [65535], "65535", ""⟩
      rfl rfl "").1 (by decide)
    rw [h]
    decide
  · have h := (printPwColor_spec ⟨TypeId.unsignedShort, [120], "120", ""⟩
      rfl rfl "").2 (by decide)
    rw [h]
    decide

/-- C6: on a count-1 `unsignedShort` value, the biased-scalar formatter
prints the reading minus 4 in exact signed integer arithmetic. -/
theorem printValueMinus4_spec (v : Value)
    (ht : v.typeId = TypeId.unsignedShort) (hc : v.count = 1) :
    ∀ os : String, printValueMinus4 os v = os ++ toString (v.toInt64 0 - 4) := by
  intro os
  simp [printValueMinus4, ht, hc]

/-- Witness for C6: reading 6 prints "2" and reading 0 prints "-4". -/
theorem printValueMinus4_spec_witness :
    printValueMinus4 "" ⟨TypeId.unsignedShort, [6], "6", ""⟩ = "2" ∧
    printValueMinus4 "" ⟨TypeId.unsignedShort, [0], "0", ""⟩ = "-4" := by
  constructor
  · have h := printValueMinus4_spec ⟨TypeId.unsignedShort, [6], "6", ""⟩ rfl rfl ""
    rw [h]
    decide
  · have h := printValueMinus4_spec ⟨TypeId.unsignedShort, [0], "0", ""⟩ rfl rfl ""
    rw [h]
    decide

/-- C7: each specialized formatter, on a value whose count is not 1 or
whose runtime type differs from the type it expects, emits exactly the
value's default raw representation (what `printValue` prints); the
formatters are total, so no error is ever raised. -/
theorem formatter_type_mismatch_fallback (v : Value) (os : String) :
    (v.count ≠ 1 ∨ v.typeId ≠ TypeId.signedRational →
       printCameraTemperature os v = printValue os v) ∧
    (v.count ≠ 1 ∨ v.typeId ≠ TypeId.unsignedLong →
       printFocalLength35 os v = printValue os v) ∧
    (v.count ≠ 1 ∨ v.typeId ≠ TypeId.unsignedShort →
       printPwColor os v = printValue os v) ∧
    (v.count ≠ 1 ∨ v.typeId ≠ TypeId.unsignedShort →
       printValueMinus4 os v = printValue os v) := by
  refine ⟨fun h => ?_, fun h => ?_, fun h => ?_, fun h => ?_⟩ <;>
    simp only [printCameraTemperature, printFocalLength35, printPwColor,
      printValueMinus4, printValue] <;>
    rw [if_pos h]

/-- Witness for C7: a two-component value takes the raw fallback in all
four specialized formatters (shown here for the camera-temperature
one). -/
theorem formatter_type_mismatch_fallback_witness :
    printCameraTemperature "" ⟨TypeId.unsignedShort, [1, 2], "1 2", ""⟩ =
      printValue "" ⟨TypeId.unsignedShort, [1, 2], "1 2", ""⟩ :=
  (formatter_type_mismatch_fallback ⟨TypeId.unsignedShort, [1, 2], "1 2", ""⟩ "").1
    (by decide)

/-- C8: for each lookup table bound in the registries, the generic
lookup-table formatter on a count-1 `unsignedShort` value emits the
table's label when the reading matches a code, the raw integer when it
matches none, and the value's default raw representation on a count or
type mismatch. -/
theorem printTagList_spec :
    ∀ t ∈ [samsung2LensType, samsung2ColorSpace, samsung2SmartRange, samsungPwMode],
      ∀ (v : Value) (os : String),
        (v.count = 1 → v.typeId = TypeId.unsignedShort →
           (∀ td ∈ t, td.val = v.toInt64 0 → printTagList t os v = os ++ td.label) ∧
           ((∀ td ∈ t, td.val ≠ v.toInt64 0) →
              printTagList t os v = os ++ toString (v.toInt64 0))) ∧
        (v.count ≠ 1 ∨ v.typeId ≠ TypeId.unsignedShort →
           printTagList t os v = printValue os v) := by
  have huniq : ∀ t ∈ [samsung2LensType, samsung2ColorSpace, samsung2SmartRange,
      samsungPwMode], t.Pairwise (fun a b => a.val ≠ b.val) := by decide
  intro t ht v os
  refine ⟨fun hc hty => ⟨fun td htd hval => ?_, fun hnone => ?_⟩, fun h => ?_⟩
  · have hfind := find?_val_eq (huniq t ht) htd hval
    simp [printTagList, hc, hty, hfind]
  · have hfind : t.find? (fun td => td.val == v.toInt64 0) = none :=
      List.find?_eq_none.mpr fun td htd => by simpa using hnone td htd
    simp [printTagList, hc, hty, hfind]
  · have hcond : ¬(v.count = 1 ∧ v.typeId = TypeId.unsignedShort) := by tauto
    simp [printTagList, printValue, hcond]

/-- Witness for C8: lens code 5 maps to its label through the LensType
table. -/
theorem printTagList_spec_witness :
    printTagList samsung2LensType "" ⟨TypeId.unsignedShort, [5], "5", ""⟩ =
      "" ++ "Samsung NX 20mm F2.8 Pancake" :=
  ((printTagList_spec samsung2LensType (by decide)
      ⟨TypeId.unsignedShort, [5], "5", ""⟩ "").1 (by decide) (by decide)).1
    ⟨5, "Samsung NX 20mm F2.8 Pancake"⟩ (by decide) (by decide)

/-- C9: every formatter reachable from the registries is deterministic
and side-effect free: its invocation only appends to the output stream a
text determined by the formatter identity and the value alone, so two
invocations on the same (descriptor, value) pair emit byte-identical
text whatever the stream state; the value and the registries, being
immutable data of the embedding, are untouched. -/
theorem applyFct_pure (fct : PrintFct) (v : Value) (os₁ os₂ : String) :
    ∃ out : String, applyFct fct os₁ v = os₁ ++ out ∧ applyFct fct os₂ v = os₂ ++ out :=
  ⟨applyFct fct "" v, applyFct_emit fct v os₁, applyFct_emit fct v os₂⟩

/-- C10: homogeneity of the registries: every Samsung2 entry has
directory id `samsung2Id` and count -1; every PictureWizard entry,
sentinel included, has directory id `samsungPwId`, type
`unsignedShort`, and count 1; and in each table the tag ids are
strictly increasing, hence pairwise distinct. -/
theorem registries_homogeneous :
    (∀ ti ∈ tagInfo_, ti.ifdId = IfdId.samsung2Id ∧ ti.count = -1) ∧
    (∀ ti ∈ tagInfoPw_, ti.ifdId = IfdId.samsungPwId ∧
       ti.typeId = TypeId.unsignedShort ∧ ti.count = 1) ∧
    (tagInfo_.map TagInfo.tag).Pairwise (· < ·) ∧
    (tagInfoPw_.map TagInfo.tag).Pairwise (· < ·) :=
  ⟨by decide, by decide, by decide, by decide⟩

/-- Witness for C10 at the PictureWizard sentinel entry. -/
theorem registries_homogeneous_witness :
    sentinelSamsungPw.ifdId = IfdId.samsungPwId ∧
    sentinelSamsungPw.typeId = TypeId.unsignedShort ∧ sentinelSamsungPw.count = 1 :=
  registries_homogeneous.2.1 sentinelSamsungPw (by decide)

end Exiv2Samsung
